import Mathlib

/-!
Shallow embedding of the interactive terminal map-preview subsystem of
kartoza/kartoza-cloudbench (the `MapPreview` bubbletea component in
`internal/tui/components`), together with theorems settling the frozen
claims about it.

Conventions:
* Go `float64` viewport/projection arithmetic is modelled over `ℝ`
  (exact real arithmetic); `math.Pow(2, zoom)` becomes real rpow.
* Go machine integers are modelled as `ℤ`/`ℕ` (no value in the component
  ever approaches an overflow boundary).
* The image renderer's pixel arithmetic is modelled over `ℚ`/`ℕ` so it is
  executable.
* External library calls (`http.Request.SetBasicAuth`, `url.QueryEscape`,
  `exec.LookPath`, environment lookups) are modelled from their documented
  behaviour as explicit functions / environment records.
-/

namespace KGC

/-! ## Viewport controller (`MapPreview` map state, `updateBBox`, pan/zoom)

Source: `internal/tui/components` map preview, fields `centerX`, `centerY`,
`zoomLevel`, `bbox` and methods `updateBBox`, `zoomIn`, `zoomOut`,
`panUp`, `panDown`, `panLeft`, `panRight`, `nextStyle`, `prevStyle`,
`SetBounds`, `SetStyles`. -/

/-- A geographic bounding box `[minX, minY, maxX, maxY]`. -/
structure BBoxR where
  x0 : ℝ
  y0 : ℝ
  x1 : ℝ
  y1 : ℝ

/-- Embedding of `updateBBox` as a function of the center and zoom it reads:
zoom-derived window centered on the center, then the source's four
sequential edge clamps (longitude first, then latitude), each shifting the
whole window. -/
noncomputable def updateBBox (cx cy zoom : ℝ) : BBoxR :=
  let scale := 1 / (2 : ℝ) ^ zoom
  let width := 360 * scale
  let height := 180 * scale
  let a0 := cx - width / 2
  let a1 := cy - height / 2
  let a2 := cx + width / 2
  let a3 := cy + height / 2
  -- if bbox[0] < -180: bbox[0] = -180; bbox[2] = bbox[0] + width
  let b0 := if a0 < -180 then -180 else a0
  let b2 := if a0 < -180 then -180 + width else a2
  -- if bbox[2] > 180: bbox[2] = 180; bbox[0] = bbox[2] - width
  let c0 := if b2 > 180 then 180 - width else b0
  let c2 := if b2 > 180 then 180 else b2
  -- if bbox[1] < -90: bbox[1] = -90; bbox[3] = bbox[1] + height
  let b1 := if a1 < -90 then -90 else a1
  let b3 := if a1 < -90 then -90 + height else a3
  -- if bbox[3] > 90: bbox[3] = 90; bbox[1] = bbox[3] - height
  let c1 := if b3 > 90 then 90 - height else b1
  let c3 := if b3 > 90 then 90 else b3
  ⟨c0, c1, c2, c3⟩

/-- The map-preview component state (the fields the event loop mutates).
`frame` models `renderedImage` together with the fetch result it was
rendered from: the rendered string is a pure function of the result bytes,
and the originating request's bbox is carried as specification-level
provenance (`none` = cleared frame). -/
structure MapState where
  centerX : ℝ
  centerY : ℝ
  zoomLevel : ℝ
  bbox : BBoxR
  stylesL : List String
  currentStyle : ℤ
  visible : Bool
  loading : Bool
  errorMsg : String
  imageData : Option (List ℕ)
  frame : Option (BBoxR × List ℕ)

/-- `zoomIn`: if `zoomLevel < 20`, add 0.5 and recompute the bbox. -/
noncomputable def zoomIn (s : MapState) : MapState :=
  if s.zoomLevel < 20 then
    { s with zoomLevel := s.zoomLevel + 0.5,
             bbox := updateBBox s.centerX s.centerY (s.zoomLevel + 0.5) }
  else s

/-- `zoomOut`: if `zoomLevel > 0`, subtract 0.5 and recompute the bbox. -/
noncomputable def zoomOut (s : MapState) : MapState :=
  if s.zoomLevel > 0 then
    { s with zoomLevel := s.zoomLevel - 0.5,
             bbox := updateBBox s.centerX s.centerY (s.zoomLevel - 0.5) }
  else s

/-- `panUp`: shift `centerY` up by 12.5% of the current bbox height, then
recompute the bbox. -/
noncomputable def panUp (s : MapState) : MapState :=
  let height := s.bbox.y1 - s.bbox.y0
  { s with centerY := s.centerY + height * 0.125,
           bbox := updateBBox s.centerX (s.centerY + height * 0.125) s.zoomLevel }

/-- `panDown`: shift `centerY` down by 12.5% of the current bbox height. -/
noncomputable def panDown (s : MapState) : MapState :=
  let height := s.bbox.y1 - s.bbox.y0
  { s with centerY := s.centerY - height * 0.125,
           bbox := updateBBox s.centerX (s.centerY - height * 0.125) s.zoomLevel }

/-- `panLeft`: shift `centerX` left by 12.5% of the current bbox width. -/
noncomputable def panLeft (s : MapState) : MapState :=
  let width := s.bbox.x1 - s.bbox.x0
  { s with centerX := s.centerX - width * 0.125,
           bbox := updateBBox (s.centerX - width * 0.125) s.centerY s.zoomLevel }

/-- `panRight`: shift `centerX` right by 12.5% of the current bbox width. -/
noncomputable def panRight (s : MapState) : MapState :=
  let width := s.bbox.x1 - s.bbox.x0
  { s with centerX := s.centerX + width * 0.125,
           bbox := updateBBox (s.centerX + width * 0.125) s.centerY s.zoomLevel }

/-- `nextStyle`: cyclic increment of the style index, no-op on an empty
list.  Source: `m.currentStyle = (m.currentStyle + 1) % len(m.styles)`;
Go `%` agrees with Euclidean mod on the nonnegative reachable indices. -/
noncomputable def nextStyle (s : MapState) : MapState :=
  if 0 < s.stylesL.length then
    { s with currentStyle := (s.currentStyle + 1) % (s.stylesL.length : ℤ) }
  else s

/-- `prevStyle`: decrement the style index and wrap to `len-1` below 0,
no-op on an empty list. -/
noncomputable def prevStyle (s : MapState) : MapState :=
  if 0 < s.stylesL.length then
    let i := s.currentStyle - 1
    { s with currentStyle := if i < 0 then (s.stylesL.length : ℤ) - 1 else i }
  else s

/-- `SetBounds`: store the supplied bounds directly as the bbox and set the
center to their midpoint (the bbox is not re-derived from center/zoom). -/
noncomputable def setBounds (s : MapState) (minX minY maxX maxY : ℝ) : MapState :=
  { s with bbox := ⟨minX, minY, maxX, maxY⟩,
           centerX := (minX + maxX) / 2,
           centerY := (minY + maxY) / 2 }

/-- `SetStyles`: replace the style list; reset the index to 0 when the new
list is non-empty. -/
noncomputable def setStyles (s : MapState) (styleNames : List String) : MapState :=
  let t := { s with stylesL := styleNames }
  if 0 < styleNames.length then { t with currentStyle := 0 } else t

/-- `NewMapPreview`: world-extent bbox, center `(0,0)`, zoom `2.0`, empty
style list, loading, visible. -/
noncomputable def newMapPreview : MapState :=
  { centerX := 0, centerY := 0, zoomLevel := 2,
    bbox := ⟨-180, -90, 180, 90⟩,
    stylesL := [], currentStyle := 0,
    visible := true, loading := true, errorMsg := "",
    imageData := none, frame := none }

/-! ### Helper lemmas about `updateBBox` -/

theorem two_rpow_pos (z : ℝ) : 0 < (2 : ℝ) ^ z :=
  Real.rpow_pos_of_pos (by norm_num) z

theorem one_le_two_rpow {z : ℝ} (hz : 0 ≤ z) : 1 ≤ (2 : ℝ) ^ z :=
  Real.one_le_rpow (by norm_num) hz

theorem two_rpow_two : (2 : ℝ) ^ (2 : ℝ) = 4 := by
  rw [show (2 : ℝ) = ((2 : ℕ) : ℝ) by norm_num]
  rw [Real.rpow_natCast]
  norm_num

theorem two_rpow_zero : (2 : ℝ) ^ (0 : ℝ) = 1 := Real.rpow_zero 2

/-- The longitude clamps preserve the bbox width exactly, for every zoom. -/
theorem updateBBox_width (cx cy zoom : ℝ) :
    (updateBBox cx cy zoom).x1 - (updateBBox cx cy zoom).x0 =
      360 * (1 / (2 : ℝ) ^ zoom) := by
  unfold updateBBox
  simp only
  split_ifs <;> ring

/-- The latitude clamps preserve the bbox height exactly, for every zoom. -/
theorem updateBBox_height (cx cy zoom : ℝ) :
    (updateBBox cx cy zoom).y1 - (updateBBox cx cy zoom).y0 =
      180 * (1 / (2 : ℝ) ^ zoom) := by
  unfold updateBBox
  simp only
  split_ifs <;> ring

/-! ### Claims C4 and C10: the shape of `updateBBox` output -/

/-- The clamped bbox lies inside the world extents along the x-axis,
provided the nominal width is at most 360 (true whenever zoom ≥ 0). -/
theorem updateBBox_x_inside (cx cy z : ℝ) (h0 : 0 ≤ z) :
    -180 ≤ (updateBBox cx cy z).x0 ∧ (updateBBox cx cy z).x1 ≤ 180 := by
  have h1p : (1 : ℝ) ≤ 2 ^ z := one_le_two_rpow h0
  have hw1 : 360 * (1 / (2 : ℝ) ^ z) ≤ 360 := by
    rw [mul_one_div]; exact div_le_self (by norm_num) h1p
  unfold updateBBox
  simp only
  split_ifs <;> constructor <;> linarith

/-- The clamped bbox lies inside the world extents along the y-axis,
provided the nominal height is at most 180 (true whenever zoom ≥ 0). -/
theorem updateBBox_y_inside (cx cy z : ℝ) (h0 : 0 ≤ z) :
    -90 ≤ (updateBBox cx cy z).y0 ∧ (updateBBox cx cy z).y1 ≤ 90 := by
  have h1p : (1 : ℝ) ≤ 2 ^ z := one_le_two_rpow h0
  have hh1 : 180 * (1 / (2 : ℝ) ^ z) ≤ 180 := by
    rw [mul_one_div]; exact div_le_self (by norm_num) h1p
  unfold updateBBox
  simp only
  split_ifs <;> constructor <;> linarith

/-- When the centered window already fits horizontally, no x-clamp fires. -/
theorem updateBBox_x_centered (cx cy z : ℝ)
    (hlo : -180 ≤ cx - 360 * (1 / (2 : ℝ) ^ z) / 2)
    (hhi : cx + 360 * (1 / (2 : ℝ) ^ z) / 2 ≤ 180) :
    (updateBBox cx cy z).x0 = cx - 360 * (1 / (2 : ℝ) ^ z) / 2 ∧
    (updateBBox cx cy z).x1 = cx + 360 * (1 / (2 : ℝ) ^ z) / 2 := by
  unfold updateBBox
  simp only
  split_ifs <;> constructor <;> linarith

/-- When the centered window already fits vertically, no y-clamp fires. -/
theorem updateBBox_y_centered (cx cy z : ℝ)
    (hlo : -90 ≤ cy - 180 * (1 / (2 : ℝ) ^ z) / 2)
    (hhi : cy + 180 * (1 / (2 : ℝ) ^ z) / 2 ≤ 90) :
    (updateBBox cx cy z).y0 = cy - 180 * (1 / (2 : ℝ) ^ z) / 2 ∧
    (updateBBox cx cy z).y1 = cy + 180 * (1 / (2 : ℝ) ^ z) / 2 := by
  unfold updateBBox
  simp only
  split_ifs <;> constructor <;> linarith

/-- C4: for all zoom `z ∈ [0,20]` and any center, `updateBBox` yields a bbox
of width `360/2^z` and height `180/2^z` (exactly, hence within tolerance
1e-6), centered on the center whenever no clamp is needed, and in all cases
shifted so that the result lies inside `[-180,180] × [-90,90]`. -/
theorem recomputeBBox_dims (cx cy z : ℝ) (h0 : 0 ≤ z) (h20 : z ≤ 20) :
    (updateBBox cx cy z).x1 - (updateBBox cx cy z).x0 = 360 / (2 : ℝ) ^ z ∧
    (updateBBox cx cy z).y1 - (updateBBox cx cy z).y0 = 180 / (2 : ℝ) ^ z ∧
    (-180 ≤ (updateBBox cx cy z).x0 ∧ (updateBBox cx cy z).x1 ≤ 180 ∧
      -90 ≤ (updateBBox cx cy z).y0 ∧ (updateBBox cx cy z).y1 ≤ 90) ∧
    ((-180 ≤ cx - (360 / (2 : ℝ) ^ z) / 2 ∧ cx + (360 / (2 : ℝ) ^ z) / 2 ≤ 180) →
      (updateBBox cx cy z).x0 = cx - (360 / (2 : ℝ) ^ z) / 2 ∧
      (updateBBox cx cy z).x1 = cx + (360 / (2 : ℝ) ^ z) / 2) ∧
    ((-90 ≤ cy - (180 / (2 : ℝ) ^ z) / 2 ∧ cy + (180 / (2 : ℝ) ^ z) / 2 ≤ 90) →
      (updateBBox cx cy z).y0 = cy - (180 / (2 : ℝ) ^ z) / 2 ∧
      (updateBBox cx cy z).y1 = cy + (180 / (2 : ℝ) ^ z) / 2) := by
  have hdivx : 360 / (2 : ℝ) ^ z = 360 * (1 / (2 : ℝ) ^ z) := by ring
  have hdivy : 180 / (2 : ℝ) ^ z = 180 * (1 / (2 : ℝ) ^ z) := by ring
  refine ⟨?_, ?_, ?_, ?_, ?_⟩
  · rw [updateBBox_width, hdivx]
  · rw [updateBBox_height, hdivy]
  · obtain ⟨ha, hb⟩ := updateBBox_x_inside cx cy z h0
    obtain ⟨hc, hd⟩ := updateBBox_y_inside cx cy z h0
    exact ⟨ha, hb, hc, hd⟩
  · rw [hdivx]
    intro hc
    exact updateBBox_x_centered cx cy z hc.1 hc.2
  · rw [hdivy]
    intro hc
    exact updateBBox_y_centered cx cy z hc.1 hc.2

/-- Witness for `recomputeBBox_dims` at center `(0,0)`, zoom `0`. -/
theorem recomputeBBox_dims_witness :
    (updateBBox 0 0 0).x1 - (updateBBox 0 0 0).x0 = 360 / (2 : ℝ) ^ (0 : ℝ) ∧
    (updateBBox 0 0 0).y1 - (updateBBox 0 0 0).y0 = 180 / (2 : ℝ) ^ (0 : ℝ) ∧
    (-180 ≤ (updateBBox 0 0 0).x0 ∧ (updateBBox 0 0 0).x1 ≤ 180 ∧
      -90 ≤ (updateBBox 0 0 0).y0 ∧ (updateBBox 0 0 0).y1 ≤ 90) ∧
    ((-180 ≤ 0 - (360 / (2 : ℝ) ^ (0 : ℝ)) / 2 ∧
        0 + (360 / (2 : ℝ) ^ (0 : ℝ)) / 2 ≤ 180) →
      (updateBBox 0 0 0).x0 = 0 - (360 / (2 : ℝ) ^ (0 : ℝ)) / 2 ∧
      (updateBBox 0 0 0).x1 = 0 + (360 / (2 : ℝ) ^ (0 : ℝ)) / 2) ∧
    ((-90 ≤ 0 - (180 / (2 : ℝ) ^ (0 : ℝ)) / 2 ∧
        0 + (180 / (2 : ℝ) ^ (0 : ℝ)) / 2 ≤ 90) →
      (updateBBox 0 0 0).y0 = 0 - (180 / (2 : ℝ) ^ (0 : ℝ)) / 2 ∧
      (updateBBox 0 0 0).y1 = 0 + (180 / (2 : ℝ) ^ (0 : ℝ)) / 2) :=
  recomputeBBox_dims 0 0 0 (by norm_num) (by norm_num)

/-- C10: for every center and zoom `z ≥ 0`, the bbox keeps width `360/2^z`
and height `180/2^z` exactly even when the edge clamps fire; the longitude
clamp only determines the x-coordinates (they do not depend on `cy`) and
the latitude clamp only the y-coordinates (they do not depend on `cx`), so
the two clamps cannot interact and the shift never shrinks the window. -/
theorem clamp_axis_independent (cx cy cx' cy' z : ℝ) (h0 : 0 ≤ z) :
    (updateBBox cx cy z).x1 - (updateBBox cx cy z).x0 = 360 / (2 : ℝ) ^ z ∧
    (updateBBox cx cy z).y1 - (updateBBox cx cy z).y0 = 180 / (2 : ℝ) ^ z ∧
    (updateBBox cx cy z).x0 = (updateBBox cx cy' z).x0 ∧
    (updateBBox cx cy z).x1 = (updateBBox cx cy' z).x1 ∧
    (updateBBox cx cy z).y0 = (updateBBox cx' cy z).y0 ∧
    (updateBBox cx cy z).y1 = (updateBBox cx' cy z).y1 := by
  refine ⟨?_, ?_, ?_, ?_, ?_, ?_⟩
  · rw [updateBBox_width]; ring
  · rw [updateBBox_height]; ring
  · rfl
  · rfl
  · rfl
  · rfl

/-- Witness for `clamp_axis_independent` at the world corner `(180, 90)`,
zoom `0` (both clamps fire). -/
theorem clamp_axis_independent_witness :
    (updateBBox 180 90 0).x1 - (updateBBox 180 90 0).x0 = 360 / (2 : ℝ) ^ (0 : ℝ) ∧
    (updateBBox 180 90 0).y1 - (updateBBox 180 90 0).y0 = 180 / (2 : ℝ) ^ (0 : ℝ) ∧
    (updateBBox 180 90 0).x0 = (updateBBox 180 0 0).x0 ∧
    (updateBBox 180 90 0).x1 = (updateBBox 180 0 0).x1 ∧
    (updateBBox 180 90 0).y0 = (updateBBox 0 90 0).y0 ∧
    (updateBBox 180 90 0).y1 = (updateBBox 0 90 0).y1 :=
  clamp_axis_independent 180 90 0 90 0 (by norm_num)

/-! ### Claim C5: zoom stepping and saturation -/

/-- Iterating `zoomIn` from zoom 0 advances the zoom by half-levels. -/
theorem zoomIn_iterate_zoomLevel (k : ℕ) (hk : k ≤ 40) (s : MapState)
    (hs : s.zoomLevel = 0) : (zoomIn^[k] s).zoomLevel = (k : ℝ) / 2 := by
  induction k with
  | zero => simpa using hs
  | succ n ih =>
    have hn : n ≤ 40 := Nat.le_of_succ_le hk
    have hzn : (zoomIn^[n] s).zoomLevel = (n : ℝ) / 2 := ih hn
    have hn39 : n ≤ 39 := Nat.lt_succ_iff.mp (Nat.lt_of_succ_le hk)
    have hlt : (zoomIn^[n] s).zoomLevel < 20 := by
      rw [hzn]
      have : (n : ℝ) ≤ 39 := by exact_mod_cast hn39
      linarith
    rw [Function.iterate_succ_apply', zoomIn, if_pos hlt]
    simp only [hzn]
    push_cast
    ring

/-- C5: `zoomIn`/`zoomOut` move the zoom by ±0.5 with the result clamped to
`[0,20]` (on the half-level grid the code actually reaches), are no-ops
beyond the bounds, and 40 `zoomIn` calls from zoom 0 saturate at 20, after
which every further `zoomIn` leaves the state unchanged. -/
theorem zoom_step_clamped (s : MapState) (j : ℤ) (hj : s.zoomLevel = (j : ℝ) / 2)
    (h0 : 0 ≤ s.zoomLevel) (h20 : s.zoomLevel ≤ 20) :
    (zoomIn s).zoomLevel = min (s.zoomLevel + 0.5) 20 ∧
    (zoomOut s).zoomLevel = max (s.zoomLevel - 0.5) 0 ∧
    (20 ≤ s.zoomLevel → zoomIn s = s) ∧
    (s.zoomLevel ≤ 0 → zoomOut s = s) ∧
    (s.zoomLevel = 0 → (zoomIn^[40] s).zoomLevel = 20) ∧
    (∀ t : MapState, 20 ≤ t.zoomLevel → zoomIn t = t) := by
  refine ⟨?_, ?_, ?_, ?_, ?_, ?_⟩
  · rcases lt_or_ge s.zoomLevel 20 with hlt | hge
    · have hj40 : (j : ℝ) < 40 := by rw [hj] at hlt; linarith
      have hj40' : j ≤ 39 := by
        have : j < 40 := by exact_mod_cast hj40
        omega
      have hle : s.zoomLevel + 0.5 ≤ 20 := by
        rw [hj]
        have : (j : ℝ) ≤ 39 := by exact_mod_cast hj40'
        linarith
      rw [zoomIn, if_pos hlt]
      simp only
      rw [min_eq_left hle]
    · have heq : s.zoomLevel = 20 := le_antisymm h20 hge
      rw [zoomIn, if_neg (not_lt.mpr hge), heq]
      norm_num
  · rcases lt_or_ge 0 s.zoomLevel with hlt | hge
    · have hj1 : (0 : ℝ) < (j : ℝ) := by rw [hj] at hlt; linarith
      have hj1' : 1 ≤ j := by
        have : 0 < j := by exact_mod_cast hj1
        omega
      have hle : 0 ≤ s.zoomLevel - 0.5 := by
        rw [hj]
        have : (1 : ℝ) ≤ (j : ℝ) := by exact_mod_cast hj1'
        linarith
      rw [zoomOut, if_pos hlt]
      simp only
      rw [max_eq_left hle]
    · have heq : s.zoomLevel = 0 := le_antisymm hge h0
      rw [zoomOut, if_neg (not_lt.mpr hge), heq]
      norm_num
  · intro h
    rw [zoomIn, if_neg (not_lt.mpr h)]
  · intro h
    rw [zoomOut, if_neg (not_lt.mpr h)]
  · intro h
    rw [zoomIn_iterate_zoomLevel 40 le_rfl s h]
    norm_num
  · intro t ht
    rw [zoomIn, if_neg (not_lt.mpr ht)]

/-- Concrete state with zoom 0 and the corresponding world-extent bbox
(reached from the initial state by four `zoomOut` presses). -/
noncomputable def zoomZeroState : MapState :=
  { centerX := 0, centerY := 0, zoomLevel := 0,
    bbox := ⟨-180, -90, 180, 90⟩,
    stylesL := [], currentStyle := 0,
    visible := true, loading := true, errorMsg := "",
    imageData := none, frame := none }

/-- Witness for `zoom_step_clamped` at the zoom-0 state. -/
theorem zoom_step_clamped_witness :
    (zoomIn zoomZeroState).zoomLevel = min (zoomZeroState.zoomLevel + 0.5) 20 ∧
    (zoomOut zoomZeroState).zoomLevel = max (zoomZeroState.zoomLevel - 0.5) 0 ∧
    (20 ≤ zoomZeroState.zoomLevel → zoomIn zoomZeroState = zoomZeroState) ∧
    (zoomZeroState.zoomLevel ≤ 0 → zoomOut zoomZeroState = zoomZeroState) ∧
    (zoomZeroState.zoomLevel = 0 → (zoomIn^[40] zoomZeroState).zoomLevel = 20) ∧
    (∀ t : MapState, 20 ≤ t.zoomLevel → zoomIn t = t) :=
  zoom_step_clamped zoomZeroState 0 (by norm_num [zoomZeroState])
    (by norm_num [zoomZeroState]) (by norm_num [zoomZeroState])

/-! ### Claim C6: pan pairs restore the center -/

/-- C6 counterexample: at the freshly constructed state (world-extent bbox,
zoom 2.0, center 0), `panLeft` shifts the center by 12.5% of the stored
360-wide bbox (to −45) but recomputes a 90-wide bbox, so `panRight` shifts
back by only 11.25: the center ends at −33.75, not 0 — and no world-edge
clamp fires anywhere (both intermediate and final bboxes are strictly
inside the world extents, so the claim's clamping exception does not
apply). -/
theorem pan_pair_fails_at_construction :
    newMapPreview.centerX = 0 ∧
    (panRight (panLeft newMapPreview)).centerX = -33.75 ∧
    ((-33.75 : ℝ) ≠ 0) ∧
    (-180 < (panLeft newMapPreview).bbox.x0 ∧
      (panLeft newMapPreview).bbox.x1 < 180 ∧
      -90 < (panLeft newMapPreview).bbox.y0 ∧
      (panLeft newMapPreview).bbox.y1 < 90) ∧
    (-180 < (panRight (panLeft newMapPreview)).bbox.x0 ∧
      (panRight (panLeft newMapPreview)).bbox.x1 < 180 ∧
      -90 < (panRight (panLeft newMapPreview)).bbox.y0 ∧
      (panRight (panLeft newMapPreview)).bbox.y1 < 90) := by
  have hcx1 : (panLeft newMapPreview).centerX = -45 := by
    have h1 : (panLeft newMapPreview).centerX =
        (0 : ℝ) - (180 - (-180 : ℝ)) * 0.125 := rfl
    rw [h1]
    norm_num
  have hb1 : (panLeft newMapPreview).bbox = BBoxR.mk (-90) (-45 / 2) 0 (45 / 2) := by
    have h2 : (panLeft newMapPreview).bbox =
        updateBBox ((0 : ℝ) - (180 - (-180 : ℝ)) * 0.125) 0 2 := rfl
    rw [h2, show (0 : ℝ) - (180 - (-180 : ℝ)) * 0.125 = -45 by norm_num]
    unfold updateBBox
    simp only [two_rpow_two]
    norm_num [BBoxR.mk.injEq]
  have hcx2 : (panRight (panLeft newMapPreview)).centerX = -33.75 := by
    have h3 : (panRight (panLeft newMapPreview)).centerX =
        (panLeft newMapPreview).centerX +
          ((panLeft newMapPreview).bbox.x1 -
            (panLeft newMapPreview).bbox.x0) * 0.125 := rfl
    rw [h3, hcx1, hb1]
    norm_num
  have hb2 : (panRight (panLeft newMapPreview)).bbox =
      BBoxR.mk (-78.75) (-45 / 2) 11.25 (45 / 2) := by
    have h4 : (panRight (panLeft newMapPreview)).bbox =
        updateBBox ((panLeft newMapPreview).centerX +
          ((panLeft newMapPreview).bbox.x1 -
            (panLeft newMapPreview).bbox.x0) * 0.125)
          (panLeft newMapPreview).centerY (panLeft newMapPreview).zoomLevel := rfl
    rw [h4, hcx1, hb1,
      show (panLeft newMapPreview).centerY = (0 : ℝ) from rfl,
      show (panLeft newMapPreview).zoomLevel = (2 : ℝ) from rfl,
      show (-45 : ℝ) + ((BBoxR.mk (-90 : ℝ) (-45 / 2) 0 (45 / 2)).x1 -
        (BBoxR.mk (-90 : ℝ) (-45 / 2) 0 (45 / 2)).x0) * 0.125 = -33.75 by norm_num]
    unfold updateBBox
    simp only [two_rpow_two]
    norm_num [BBoxR.mk.injEq]
  refine ⟨rfl, hcx2, by norm_num, ?_, ?_⟩
  · rw [hb1]
    norm_num
  · rw [hb2]
    norm_num

/-- C6 amended: each pan shifts the center by 12.5% of the *current* bbox
width/height and then recomputes the bbox, so the pan pairs restore the
center exactly (hence within any tolerance) on every state whose bbox has
the zoom-derived nominal dimensions — the invariant every `updateBBox`
call re-establishes, i.e. after any pan or zoom — and this holds even when
the bbox is clamped at a world edge, since clamping moves only the bbox and
never the center.  On states with a non-nominal bbox (construction,
`setBounds`) the pair displaces the center, clamped or not. -/
theorem pan_pairs_restore_center (s : MapState)
    (hw : s.bbox.x1 - s.bbox.x0 = 360 * (1 / (2 : ℝ) ^ s.zoomLevel))
    (hh : s.bbox.y1 - s.bbox.y0 = 180 * (1 / (2 : ℝ) ^ s.zoomLevel)) :
    (panRight (panLeft s)).centerX = s.centerX ∧
    (panRight (panLeft s)).centerY = s.centerY ∧
    (panDown (panUp s)).centerY = s.centerY ∧
    (panDown (panUp s)).centerX = s.centerX ∧
    (panLeft s).centerX = s.centerX - (s.bbox.x1 - s.bbox.x0) * 0.125 ∧
    (panRight s).centerX = s.centerX + (s.bbox.x1 - s.bbox.x0) * 0.125 ∧
    (panUp s).centerY = s.centerY + (s.bbox.y1 - s.bbox.y0) * 0.125 ∧
    (panDown s).centerY = s.centerY - (s.bbox.y1 - s.bbox.y0) * 0.125 ∧
    (panLeft s).bbox =
      updateBBox (panLeft s).centerX (panLeft s).centerY (panLeft s).zoomLevel ∧
    (panUp s).bbox =
      updateBBox (panUp s).centerX (panUp s).centerY (panUp s).zoomLevel := by
  refine ⟨?_, ?_, ?_, ?_, ?_, ?_, ?_, ?_, ?_, ?_⟩
  · simp only [panLeft, panRight]
    rw [updateBBox_width, hw]
    ring
  · simp only [panLeft, panRight]
  · simp only [panUp, panDown]
    rw [updateBBox_height, hh]
    ring
  · simp only [panUp, panDown]
  · simp only [panLeft]
  · simp only [panRight]
  · simp only [panUp]
  · simp only [panDown]
  · simp only [panLeft]
  · simp only [panUp]

/-- Witness for `pan_pairs_restore_center` at the zoom-0 world state. -/
theorem pan_pairs_restore_center_witness :
    (panRight (panLeft zoomZeroState)).centerX = zoomZeroState.centerX ∧
    (panRight (panLeft zoomZeroState)).centerY = zoomZeroState.centerY ∧
    (panDown (panUp zoomZeroState)).centerY = zoomZeroState.centerY ∧
    (panDown (panUp zoomZeroState)).centerX = zoomZeroState.centerX ∧
    (panLeft zoomZeroState).centerX =
      zoomZeroState.centerX -
        (zoomZeroState.bbox.x1 - zoomZeroState.bbox.x0) * 0.125 ∧
    (panRight zoomZeroState).centerX =
      zoomZeroState.centerX +
        (zoomZeroState.bbox.x1 - zoomZeroState.bbox.x0) * 0.125 ∧
    (panUp zoomZeroState).centerY =
      zoomZeroState.centerY +
        (zoomZeroState.bbox.y1 - zoomZeroState.bbox.y0) * 0.125 ∧
    (panDown zoomZeroState).centerY =
      zoomZeroState.centerY -
        (zoomZeroState.bbox.y1 - zoomZeroState.bbox.y0) * 0.125 ∧
    (panLeft zoomZeroState).bbox =
      updateBBox (panLeft zoomZeroState).centerX (panLeft zoomZeroState).centerY
        (panLeft zoomZeroState).zoomLevel ∧
    (panUp zoomZeroState).bbox =
      updateBBox (panUp zoomZeroState).centerX (panUp zoomZeroState).centerY
        (panUp zoomZeroState).zoomLevel :=
  pan_pairs_restore_center zoomZeroState
    (by simp [zoomZeroState, two_rpow_zero]; norm_num)
    (by simp [zoomZeroState, two_rpow_zero]; norm_num)

/-! ### Claim C3: the bbox/recomputeBBox invariant -/

/-- The spec's claimed invariant: the bbox equals the value derived from
the current center and zoom. -/
noncomputable def bboxInvariant (s : MapState) : Prop :=
  s.bbox = updateBBox s.centerX s.centerY s.zoomLevel

/-- C3 counterexample: the freshly constructed component already violates
the invariant — `NewMapPreview` stores the world-extent bbox
`[-180,-90,180,90]` while `recomputeBBox(0, 0, 2.0)` yields
`[-45,-22.5,45,22.5]`. -/
theorem bboxInvariant_fails_at_construction :
    ¬ bboxInvariant newMapPreview := by
  intro h
  have hx : newMapPreview.bbox.x0 =
      (updateBBox newMapPreview.centerX newMapPreview.centerY
        newMapPreview.zoomLevel).x0 := by rw [h]
  rw [show newMapPreview.centerX = 0 from rfl,
      show newMapPreview.centerY = 0 from rfl,
      show newMapPreview.zoomLevel = 2 from rfl,
      show newMapPreview.bbox = ⟨-180, -90, 180, 90⟩ from rfl] at hx
  unfold updateBBox at hx
  simp only [two_rpow_two] at hx
  norm_num at hx

/-- C3 amended: every pan operation and every non-saturated zoom operation
re-establishes `bbox = recomputeBBox(center, zoom)`, and the style
operations leave center/zoom/bbox untouched; but construction and
`SetBounds` write the bbox directly (world extent resp. the supplied
bounds), so the invariant does not hold in all reachable states. -/
theorem bboxInvariant_after_mutations (s : MapState)
    (minX minY maxX maxY : ℝ) :
    bboxInvariant (panLeft s) ∧ bboxInvariant (panRight s) ∧
    bboxInvariant (panUp s) ∧ bboxInvariant (panDown s) ∧
    (s.zoomLevel < 20 → bboxInvariant (zoomIn s)) ∧
    (0 < s.zoomLevel → bboxInvariant (zoomOut s)) ∧
    ((nextStyle s).bbox = s.bbox ∧ (nextStyle s).centerX = s.centerX ∧
      (nextStyle s).centerY = s.centerY ∧ (nextStyle s).zoomLevel = s.zoomLevel) ∧
    ((prevStyle s).bbox = s.bbox ∧ (prevStyle s).centerX = s.centerX ∧
      (prevStyle s).centerY = s.centerY ∧ (prevStyle s).zoomLevel = s.zoomLevel) ∧
    (setBounds s minX minY maxX maxY).bbox = ⟨minX, minY, maxX, maxY⟩ := by
  refine ⟨?_, ?_, ?_, ?_, ?_, ?_, ?_, ?_, ?_⟩
  · simp [bboxInvariant, panLeft]
  · simp [bboxInvariant, panRight]
  · simp [bboxInvariant, panUp]
  · simp [bboxInvariant, panDown]
  · intro h
    simp [bboxInvariant, zoomIn, if_pos h]
  · intro h
    simp [bboxInvariant, zoomOut, if_pos h]
  · unfold nextStyle
    split_ifs <;> simp
  · unfold prevStyle
    split_ifs <;> simp
  · simp [setBounds]

/-- Witness for `bboxInvariant_after_mutations` at the zoom-0 world state
with the world bounds. -/
theorem bboxInvariant_after_mutations_witness :
    bboxInvariant (panLeft zoomZeroState) ∧ bboxInvariant (panRight zoomZeroState) ∧
    bboxInvariant (panUp zoomZeroState) ∧ bboxInvariant (panDown zoomZeroState) ∧
    (zoomZeroState.zoomLevel < 20 → bboxInvariant (zoomIn zoomZeroState)) ∧
    (0 < zoomZeroState.zoomLevel → bboxInvariant (zoomOut zoomZeroState)) ∧
    ((nextStyle zoomZeroState).bbox = zoomZeroState.bbox ∧
      (nextStyle zoomZeroState).centerX = zoomZeroState.centerX ∧
      (nextStyle zoomZeroState).centerY = zoomZeroState.centerY ∧
      (nextStyle zoomZeroState).zoomLevel = zoomZeroState.zoomLevel) ∧
    ((prevStyle zoomZeroState).bbox = zoomZeroState.bbox ∧
      (prevStyle zoomZeroState).centerX = zoomZeroState.centerX ∧
      (prevStyle zoomZeroState).centerY = zoomZeroState.centerY ∧
      (prevStyle zoomZeroState).zoomLevel = zoomZeroState.zoomLevel) ∧
    (setBounds zoomZeroState (-10) (-10) 10 10).bbox = ⟨-10, -10, 10, 10⟩ :=
  bboxInvariant_after_mutations zoomZeroState (-10) (-10) 10 10

/-! ### Claim C1: the event loop and stale fetch results

`Update` dispatches key messages (mutate viewport, clear the frame, set
loading, issue a fetch), fetch-completion messages (`MapPreviewMsg`) and the
metadata message.  A fetch result is modelled with the bbox of the request
that produced it carried as provenance; the handler in the source reads
only `ImageData`/`Error` and never compares any bbox. -/

/-- Key commands handled by `Update` (`tea.KeyMsg` match arms). -/
inductive MapKey where
  | close
  | zoomInK
  | zoomOutK
  | panUpK
  | panDownK
  | panLeftK
  | panRightK
  | refreshK
  | nextStyleK
  | prevStyleK

/-- A completed fetch (`MapPreviewMsg`), annotated with the bbox of the
`FetchRequest` it answers (provenance not inspected by the code). -/
structure FetchRes where
  reqBbox : BBoxR
  ok : Bool
  data : List ℕ
  errText : String

/-- Messages consumed by `Update`. -/
inductive MapMsg where
  | key (k : MapKey)
  | result (r : FetchRes)
  | metadata (bounds : Option BBoxR) (styleNames : List String)

/-- Mutating key arms all do: mutate, `loading = true`,
`renderedImage = ""` (clear the frame), then issue a fetch. -/
noncomputable def clearAndLoad (s : MapState) : MapState :=
  { s with loading := true, frame := none }

/-- Embedding of `Update`: the state change performed for each message
(the returned `tea.Cmd`s — spinner ticks and the issued fetch — carry no
state). -/
noncomputable def updateStep (s : MapState) (msg : MapMsg) : MapState :=
  match msg with
  | .key .close => { s with visible := false }
  | .key .zoomInK => clearAndLoad (zoomIn s)
  | .key .zoomOutK => clearAndLoad (zoomOut s)
  | .key .panUpK => clearAndLoad (panUp s)
  | .key .panDownK => clearAndLoad (panDown s)
  | .key .panLeftK => clearAndLoad (panLeft s)
  | .key .panRightK => clearAndLoad (panRight s)
  | .key .refreshK => clearAndLoad s
  | .key .nextStyleK => clearAndLoad (nextStyle s)
  | .key .prevStyleK => clearAndLoad (prevStyle s)
  | .result r =>
      if r.ok then
        { s with loading := false, errorMsg := "",
                 imageData := some r.data, frame := some (r.reqBbox, r.data) }
      else
        { s with loading := false, errorMsg := r.errText,
                 imageData := none, frame := none }
  | .metadata bounds styleNames =>
      let s1 := match bounds with
        | some b => setBounds s b.x0 b.y0 b.x1 b.y1
        | none => s
      let s2 := if 0 < styleNames.length then setStyles s1 styleNames else s1
      { s2 with loading := true }

/-- The bbox of the fetch issued after a `panRight` from the initial state:
center `(45, 0)`, zoom `2.0`. -/
noncomputable def panBB : BBoxR := ⟨0, -45 / 2, 90, 45 / 2⟩

/-- The result of the second (fresh) fetch, for the panned bbox. -/
noncomputable def resNew : FetchRes := ⟨panBB, true, [2], ""⟩

/-- The late result of the first fetch, for the initial world bbox. -/
noncomputable def resOld : FetchRes := ⟨⟨-180, -90, 180, 90⟩, true, [1], ""⟩

/-- State after metadata (no bounds, no styles) and a `panRight` press:
the trace on which both fetches above are genuinely issued. -/
noncomputable def staleS0 : MapState :=
  updateStep (updateStep newMapPreview (.metadata none [])) (.key .panRightK)

/-- State after the fresh result arrives (matching the current bbox). -/
noncomputable def staleS1 : MapState := updateStep staleS0 (.result resNew)

/-- State after the stale world-bbox result arrives late. -/
noncomputable def staleS2 : MapState := updateStep staleS1 (.result resOld)

theorem staleS0_bbox : staleS0.bbox = panBB ∧ staleS0.frame = none := by
  constructor
  · have h1 : staleS0.bbox = updateBBox ((0 : ℝ) + (180 - (-180 : ℝ)) * 0.125) 0 2 := rfl
    rw [h1, show (0 : ℝ) + (180 - (-180 : ℝ)) * 0.125 = 45 by norm_num]
    unfold updateBBox panBB
    simp only [two_rpow_two]
    norm_num [BBoxR.mk.injEq]
  · rfl

/-- C1 counterexample: on a realizable trace (initial fetch for the world
bbox, a `panRight` issuing a second fetch, the second result arriving
first), the late world-bbox result — whose request bbox differs from the
Viewport's bbox at arrival time — is **not** discarded: it overwrites the
committed frame that matched the newer bbox, leaving a frame that does not
correspond to the Viewport state current at its arrival. -/
theorem stale_result_overwrites_frame :
    staleS1.frame = some (resNew.reqBbox, resNew.data) ∧
    resNew.reqBbox = staleS1.bbox ∧
    staleS2.frame = some (resOld.reqBbox, resOld.data) ∧
    resOld.reqBbox ≠ staleS2.bbox := by
  obtain ⟨hb, _⟩ := staleS0_bbox
  refine ⟨rfl, ?_, rfl, ?_⟩
  · show resNew.reqBbox = (updateStep staleS0 (.result resNew)).bbox
    rw [show (updateStep staleS0 (.result resNew)).bbox = staleS0.bbox from rfl, hb]
    rfl
  · intro h
    have h2 : staleS2.bbox = panBB := by
      rw [show staleS2.bbox = staleS0.bbox from rfl, hb]
    rw [h2] at h
    have hx : resOld.reqBbox.x0 = panBB.x0 := by rw [h]
    rw [show resOld.reqBbox.x0 = -180 from rfl,
        show panBB.x0 = 0 from rfl] at hx
    norm_num at hx

/-- C1 amended: the handler for a fetch completion commits the result
unconditionally — a successful result always becomes the displayed frame
and leaves the viewport untouched, regardless of whether its request bbox
matches the Viewport's current bbox; a failed result clears the frame and
surfaces the error.  Stale results are only mitigated by clearing the frame
on each mutation, never by an arrival-time bbox comparison. -/
theorem fetch_result_always_committed (s : MapState) (r : FetchRes) :
    (r.ok = true →
      (updateStep s (.result r)).frame = some (r.reqBbox, r.data) ∧
      (updateStep s (.result r)).errorMsg = "" ∧
      (updateStep s (.result r)).loading = false) ∧
    (r.ok = false →
      (updateStep s (.result r)).frame = none ∧
      (updateStep s (.result r)).errorMsg = r.errText) ∧
    (updateStep s (.result r)).bbox = s.bbox := by
  refine ⟨?_, ?_, ?_⟩
  · intro h
    simp [updateStep, h]
  · intro h
    simp [updateStep, h]
  · simp only [updateStep]
    split_ifs <;> rfl

/-- Witness for `fetch_result_always_committed`: the stale world-bbox
result is committed even though the current bbox is the panned one. -/
theorem fetch_result_always_committed_witness :
    ((resOld.ok = true →
      (updateStep staleS1 (.result resOld)).frame = some (resOld.reqBbox, resOld.data) ∧
      (updateStep staleS1 (.result resOld)).errorMsg = "" ∧
      (updateStep staleS1 (.result resOld)).loading = false) ∧
    (resOld.ok = false →
      (updateStep staleS1 (.result resOld)).frame = none ∧
      (updateStep staleS1 (.result resOld)).errorMsg = resOld.errText) ∧
    (updateStep staleS1 (.result resOld)).bbox = staleS1.bbox) ∧
    resOld.ok = true :=
  ⟨fetch_result_always_committed staleS1 resOld, rfl⟩

/-! ### Claim C8: cyclic style selection -/

/-- Incrementing with wrap-at-length is addition modulo the length. -/
theorem emod_succ_eq (i n : ℤ) (h0 : 0 ≤ i) (h : i < n) :
    (i + 1) % n = if i + 1 = n then 0 else i + 1 := by
  split_ifs with hc
  · rw [hc, Int.emod_self]
  · exact Int.emod_eq_of_lt (by omega) (by omega)

/-- Decrementing with wrap-below-zero is subtraction modulo the length. -/
theorem emod_pred_eq (i n : ℤ) (h0 : 0 ≤ i) (h : i < n) :
    (i - 1) % n = if i - 1 < 0 then n - 1 else i - 1 := by
  split_ifs with hc
  · have hi : i = 0 := by omega
    subst hi
    have h1 : ((-1 : ℤ)) % n = (n - 1) % n := by
      conv_rhs => rw [show n - 1 = -1 + n * 1 by ring]
      rw [Int.add_mul_emod_self_left]
    rw [show (0 : ℤ) - 1 = -1 by ring, h1, Int.emod_eq_of_lt (by omega) (by omega)]
  · exact Int.emod_eq_of_lt (by omega) (by omega)

/-- C8: `nextStyle`/`prevStyle` step the style index cyclically modulo the
list length (on the in-range indices the component maintains), each is the
other's inverse on any non-empty list, and both are no-ops on the empty
list. -/
theorem style_cycling (s : MapState) (h0 : 0 ≤ s.currentStyle)
    (hlen : s.currentStyle < (s.stylesL.length : ℤ)) :
    (nextStyle s).currentStyle = (s.currentStyle + 1) % (s.stylesL.length : ℤ) ∧
    (prevStyle s).currentStyle = (s.currentStyle - 1) % (s.stylesL.length : ℤ) ∧
    (prevStyle (nextStyle s)).currentStyle = s.currentStyle ∧
    (nextStyle (prevStyle s)).currentStyle = s.currentStyle ∧
    (∀ t : MapState, t.stylesL = [] → nextStyle t = t ∧ prevStyle t = t) := by
  have hlpos : 0 < s.stylesL.length := by exact_mod_cast lt_of_le_of_lt h0 hlen
  have hn : (0 : ℤ) < (s.stylesL.length : ℤ) := by exact_mod_cast hlpos
  refine ⟨?_, ?_, ?_, ?_, ?_⟩
  · simp [nextStyle, if_pos hlpos]
  · simp only [prevStyle, if_pos hlpos]
    rw [emod_pred_eq s.currentStyle _ h0 hlen]
  · have hnext : (nextStyle s).currentStyle =
        (s.currentStyle + 1) % (s.stylesL.length : ℤ) := by
      simp [nextStyle, if_pos hlpos]
    have hnextL : (nextStyle s).stylesL = s.stylesL := by
      unfold nextStyle
      split_ifs <;> rfl
    simp only [prevStyle, hnextL, if_pos hlpos, hnext]
    rw [emod_succ_eq s.currentStyle _ h0 hlen]
    split_ifs with h1 h2 h2 <;> omega
  · have hprevL : (prevStyle s).stylesL = s.stylesL := by
      unfold prevStyle
      split_ifs <;> rfl
    have hprev : (prevStyle s).currentStyle =
        if s.currentStyle - 1 < 0 then (s.stylesL.length : ℤ) - 1
        else s.currentStyle - 1 := by
      simp [prevStyle, if_pos hlpos]
    simp only [nextStyle, hprevL, if_pos hlpos, hprev]
    split_ifs with h1
    · rw [show (s.stylesL.length : ℤ) - 1 + 1 = (s.stylesL.length : ℤ) by ring,
        Int.emod_self]
      omega
    · rw [show s.currentStyle - 1 + 1 = s.currentStyle by ring,
        Int.emod_eq_of_lt h0 hlen]
  · intro t ht
    constructor
    · unfold nextStyle
      rw [if_neg (by simp [ht])]
    · unfold prevStyle
      rw [if_neg (by simp [ht])]

/-- Concrete two-style state for the style-cycling witness. -/
noncomputable def twoStyleState : MapState :=
  { zoomZeroState with stylesL := ["line", "polygon"], currentStyle := 0 }

/-- Witness for `style_cycling` on a two-element style list at index 0. -/
theorem style_cycling_witness :
    (nextStyle twoStyleState).currentStyle =
      (twoStyleState.currentStyle + 1) % (twoStyleState.stylesL.length : ℤ) ∧
    (prevStyle twoStyleState).currentStyle =
      (twoStyleState.currentStyle - 1) % (twoStyleState.stylesL.length : ℤ) ∧
    (prevStyle (nextStyle twoStyleState)).currentStyle = twoStyleState.currentStyle ∧
    (nextStyle (prevStyle twoStyleState)).currentStyle = twoStyleState.currentStyle ∧
    (∀ t : MapState, t.stylesL = [] → nextStyle t = t ∧ prevStyle t = t) :=
  style_cycling twoStyleState (by norm_num [twoStyleState])
    (by norm_num [twoStyleState, zoomZeroState])

/-! ### Claim C9: terminal graphics protocol detection

Source: `detectImageProtocol` and `isKittyTerminal`.  The ambient
environment (the `TERM` and `KITTY_WINDOW_ID` variables, and `exec.LookPath`
success for the two helper executables) is modelled as an explicit record. -/

/-- Terminal image rendering protocols (`ImageProtocol` constants). -/
inductive ImageProtocol where
  | protocolNone
  | protocolKitty
  | protocolSixel
  | protocolChafa
  | protocolASCII
deriving DecidableEq

/-- The environment signals consulted during detection. -/
structure DetectEnv where
  term : String
  kittyWindowId : String
  hasImg2sixel : Bool
  hasChafa : Bool

/-- `strings.Contains` on the underlying character sequences. -/
def listContainsSub (s pat : List Char) : Bool :=
  match s with
  | [] => pat.isEmpty
  | _ :: t => pat.isPrefixOf s || listContainsSub t pat

/-- `isKittyTerminal`: `TERM` contains "kitty" or `KITTY_WINDOW_ID` is
non-empty. -/
def isKittyTerminal (e : DetectEnv) : Bool :=
  listContainsSub e.term.toList ("kitty".toList) || !(e.kittyWindowId == "")

/-- `detectImageProtocol`: Kitty signature, else `img2sixel` on the search
path, else `chafa` on the search path, else ASCII. -/
def detectImageProtocol (e : DetectEnv) : ImageProtocol :=
  if isKittyTerminal e then .protocolKitty
  else if e.hasImg2sixel then .protocolSixel
  else if e.hasChafa then .protocolChafa
  else .protocolASCII

/-- C9: protocol detection is first-match-wins in the order Kitty
signature → sixel helper → general raster helper → ASCII; in particular,
with no helper executables on the search path and no terminal-emulator
signature, it resolves to ASCII. -/
theorem protocol_detection_order (e : DetectEnv) :
    (isKittyTerminal e = true → detectImageProtocol e = .protocolKitty) ∧
    (isKittyTerminal e = false → e.hasImg2sixel = true →
      detectImageProtocol e = .protocolSixel) ∧
    (isKittyTerminal e = false → e.hasImg2sixel = false → e.hasChafa = true →
      detectImageProtocol e = .protocolChafa) ∧
    (isKittyTerminal e = false → e.hasImg2sixel = false → e.hasChafa = false →
      detectImageProtocol e = .protocolASCII) := by
  refine ⟨?_, ?_, ?_, ?_⟩ <;> intros <;> simp_all [detectImageProtocol]

/-- Environment with a plain terminal and no helpers. -/
def plainEnv : DetectEnv :=
  { term := "xterm-256color", kittyWindowId := "",
    hasImg2sixel := false, hasChafa := false }

/-- Witness for `protocol_detection_order`: a plain `xterm-256color`
environment without helpers resolves to ASCII. -/
theorem protocol_detection_order_witness :
    ((isKittyTerminal plainEnv = true →
        detectImageProtocol plainEnv = .protocolKitty) ∧
      (isKittyTerminal plainEnv = false → plainEnv.hasImg2sixel = true →
        detectImageProtocol plainEnv = .protocolSixel) ∧
      (isKittyTerminal plainEnv = false → plainEnv.hasImg2sixel = false →
        plainEnv.hasChafa = true → detectImageProtocol plainEnv = .protocolChafa) ∧
      (isKittyTerminal plainEnv = false → plainEnv.hasImg2sixel = false →
        plainEnv.hasChafa = false →
        detectImageProtocol plainEnv = .protocolASCII)) ∧
    isKittyTerminal plainEnv = false ∧
    detectImageProtocol plainEnv = .protocolASCII :=
  ⟨protocol_detection_order plainEnv, by decide,
    (protocol_detection_order plainEnv).2.2.2 (by decide) rfl rfl⟩

/-! ### Claim C2: the ASCII fallback renderer

Source: `renderASCII`.  PNG decoding (`png.Decode`) is an external library
call; it is modelled by starting from an already-decoded image: bounds plus
a pixel accessor returning the 16-bit channel values of Go's
`color.Color.RGBA()`.  The float sampling arithmetic
`int(float64(x) * float64(dx) / float64(asciiWidth))` is modelled by exact
rational arithmetic truncated toward zero, i.e. `(x * dx).tdiv asciiWidth`
(identical for these nonnegative quantities). -/

/-- A decoded raster image: `Bounds()` and the `RGBA()` pixel accessor. -/
structure GoImage where
  minX : ℤ
  minY : ℤ
  maxX : ℤ
  maxY : ℤ
  pix : ℤ → ℤ → ℕ × ℕ × ℕ × ℕ

/-- The glyph ramp `chars = " .:-=+*#%@"` of `renderASCII`. -/
def asciiChars : List Char := (" .:-=+*#%@").toList

/-- One character cell of `renderASCII`: nearest-neighbour sample, clamp to
the last valid pixel, blank below the alpha threshold 128, otherwise
`chars[gray * 9 / 65535]` with `gray = (r+g+b)/3`. -/
def sampleGlyph (img : GoImage) (dx dy aw ah : ℤ) (x y : ℕ) : Char :=
  let px0 : ℤ := ((x : ℤ) * dx).tdiv aw
  let py0 : ℤ := ((y : ℤ) * dy).tdiv ah
  let px := if px0 ≥ img.maxX then img.maxX - 1 else px0
  let py := if py0 ≥ img.maxY then img.maxY - 1 else py0
  match img.pix (px + img.minX) (py + img.minY) with
  | (r, g, b, a) =>
    if a < 128 then ' '
    else
      let gray := (r + g + b) / 3
      let idx := gray * 9 / 65535
      asciiChars.getD idx ' '

/-- `renderASCII` on an already-decoded image: grid size from the component
size minus chrome, clamped to `[40,100] × [15,40]`; one glyph per cell and a
newline at each row end. -/
def renderASCII (width height : ℤ) (img : GoImage) : String :=
  let aw0 := width - 4
  let aw1 := if aw0 > 100 then 100 else aw0
  let asciiWidth := if aw1 < 40 then 40 else aw1
  let ah0 := height - 8
  let ah1 := if ah0 > 40 then 40 else ah0
  let asciiHeight := if ah1 < 15 then 15 else ah1
  let dx := img.maxX - img.minX
  let dy := img.maxY - img.minY
  String.join ((List.range asciiHeight.toNat).map (fun y =>
    String.mk ((List.range asciiWidth.toNat).map (fun x =>
      sampleGlyph img dx dy asciiWidth asciiHeight x y) ++ ['\n'])))

/-- 2×2 test image: opaque black at `(0,0)`, opaque white at `(0,1)`,
fully transparent elsewhere. -/
def testImg : GoImage :=
  { minX := 0, minY := 0, maxX := 2, maxY := 2,
    pix := fun x y =>
      if x = 0 ∧ y = 0 then (0, 0, 0, 65535)
      else if x = 0 ∧ y = 1 then (65535, 65535, 65535, 65535)
      else (0, 0, 0, 0) }

/-- 2×2 test image probing the alpha threshold: white with alpha 127 on the
left column, white with alpha 128 on the right column. -/
def alphaImg : GoImage :=
  { minX := 0, minY := 0, maxX := 2, maxY := 2,
    pix := fun x _ =>
      if x = 0 then (65535, 65535, 65535, 127) else (65535, 65535, 65535, 128) }

/-- C2 counterexample: rendering the 2×2 image through the ASCII fallback
(at the smallest reachable grid, 40×16 — the code clamps the grid to at
least 40×15, so a 2×2 character grid is unreachable), the cell sampling the
fully opaque **black** pixel yields `' '`, the blank sparse end of the
ramp, not the darkest glyph `'@'`. -/
theorem ascii_black_cell_not_darkest_glyph :
    ((renderASCII 44 24 testImg).toList.getD 0 'X') = ' ' ∧
    asciiChars.getD 9 'X' = '@' ∧ (' ' : Char) ≠ '@' := by decide

/-- C2 amended: the grid is clamped to at least 40×15, so the 2×2 image
renders on a 40×16 grid whose cells nearest-neighbour-sample the four
pixels; a cell whose sampled alpha is below the fixed threshold 128 (of
65535) is blank, and at or above it the unweighted channel mean is mapped
linearly onto the ramp `" .:-=+*#%@"` with **low** luminance at the sparse
end — opaque black yields the blank first glyph (like transparent), opaque
white yields the densest glyph `'@'`. -/
theorem ascii_glyph_mapping :
    ((renderASCII 44 24 testImg).toList.getD 0 'X') = ' ' ∧
    ((renderASCII 44 24 testImg).toList.getD 20 'X') = ' ' ∧
    ((renderASCII 44 24 testImg).toList.getD 328 'X') = '@' ∧
    ((renderASCII 44 24 alphaImg).toList.getD 0 'X') = ' ' ∧
    ((renderASCII 44 24 alphaImg).toList.getD 20 'X') = '@' ∧
    asciiChars = (" .:-=+*#%@").toList := by decide

/-! ### Claim C7: the WMS GetMap request

Source: `fetchMap`.  The URL is a `Sprintf` of literal text around
`url.QueryEscape`d layer/style/format values, `%d` pixel sizes and `%f`
bbox coordinates; the request is a GET carrying `SetBasicAuth`'s
`Authorization: Basic base64(user:pass)` header.  `url.QueryEscape`,
`%d`/`%f` formatting and standard base64 are Go library functions, modelled
here from their documented behaviour (notes at each definition).  Query
strings are handled as character lists; `float64` coordinates are taken as
exact rationals, with `%f`'s fixed six fractional digits and
round-to-nearest. -/

/-- Characters `url.QueryEscape` leaves unescaped: ASCII alphanumerics and
`-_.~`. -/
def isUnreservedChar (c : Char) : Bool :=
  c.isAlphanum || c == '-' || c == '_' || c == '.' || c == '~'

/-- Uppercase hex digit for a nibble. -/
def hexDigitU (n : ℕ) : Char :=
  if n < 10 then Nat.digitChar n else Char.ofNat (55 + n)

/-- Numeric value of a hex digit character. -/
def hexVal (c : Char) : ℕ :=
  if c.isDigit then c.toNat - 48
  else if 'A' ≤ c ∧ c ≤ 'F' then c.toNat - 55
  else if 'a' ≤ c ∧ c ≤ 'f' then c.toNat - 87
  else 0

/-- `url.QueryEscape` on one byte: unreserved characters kept, space to
`+`, anything else percent-encoded in uppercase hex. -/
def escapeChar (c : Char) : List Char :=
  if isUnreservedChar c then [c]
  else if c = ' ' then ['+']
  else ['%', hexDigitU (c.toNat / 16), hexDigitU (c.toNat % 16)]

/-- `url.QueryEscape` over a character (byte) sequence. -/
def queryEscapeL (l : List Char) : List Char := (l.map escapeChar).flatten

/-- Query-string unescaping (the inverse reading of the escaped form):
`+` back to space, `%XX` decoded, everything else kept. -/
def unescapeQuery : List Char → List Char
  | [] => []
  | [c] => if c = '+' then [' '] else [c]
  | [c, d] => (if c = '+' then ' ' else c) :: unescapeQuery [d]
  | c :: d :: e :: rest =>
    if c = '%' then Char.ofNat (hexVal d * 16 + hexVal e) :: unescapeQuery rest
    else if c = '+' then ' ' :: unescapeQuery (d :: e :: rest)
    else c :: unescapeQuery (d :: e :: rest)

/-- Unescaping a percent triple. -/
theorem unescapeQuery_percent (h1 h2 : Char) (rest : List Char) :
    unescapeQuery ('%' :: h1 :: h2 :: rest) =
      Char.ofNat (hexVal h1 * 16 + hexVal h2) :: unescapeQuery rest := by
  simp [unescapeQuery]

/-- Unescaping a plus. -/
theorem unescapeQuery_plus (rest : List Char) :
    unescapeQuery ('+' :: rest) = ' ' :: unescapeQuery rest := by
  rcases rest with _ | ⟨d, _ | ⟨e, rest2⟩⟩ <;> simp [unescapeQuery]

/-- Unescaping an inert character. -/
theorem unescapeQuery_other (c : Char) (rest : List Char)
    (hpc : c ≠ '%') (hplus : c ≠ '+') :
    unescapeQuery (c :: rest) = c :: unescapeQuery rest := by
  rcases rest with _ | ⟨d, _ | ⟨e, rest2⟩⟩ <;> simp [unescapeQuery, hpc, hplus]

/-- Decimal digits of a natural number, least significant first. -/
def natDigitsRev : ℕ → List ℕ
  | 0 => []
  | n + 1 => ((n + 1) % 10) :: natDigitsRev ((n + 1) / 10)
decreasing_by exact Nat.div_lt_self (Nat.succ_pos n) (by norm_num)

/-- Decimal representation of a natural number (`%d` for naturals). -/
def natDigitsL (n : ℕ) : List Char :=
  if n = 0 then ['0'] else ((natDigitsRev n).reverse.map Nat.digitChar)

/-- `%d` of a (machine) integer. -/
def intToStrL (i : ℤ) : List Char :=
  (if i < 0 then ['-'] else []) ++ natDigitsL i.natAbs

/-- `%d` of a (machine) integer, as a string. -/
def intToStr (i : ℤ) : String := String.mk (intToStrL i)

/-- Zero-pad a fractional digit block to six places. -/
def padSixL (l : List Char) : List Char := List.replicate (6 - l.length) '0' ++ l

/-- `%f` of a float64 taken as an exact rational: optional sign, integer
part, `.`, six fractional digits; rounding to nearest (half away from
zero), matching the formatter's round-to-nearest decimalisation. -/
def fmtFL (q : ℚ) : List Char :=
  let m : ℕ := (2 * q.num.natAbs * 1000000 + q.den) / (2 * q.den)
  (if q.num < 0 then ['-'] else []) ++
    natDigitsL (m / 1000000) ++ '.' :: padSixL (natDigitsL (m % 1000000))

/-- `%f` as a string. -/
def fmtF (q : ℚ) : String := String.mk (fmtFL q)

/-! #### Character-class lemmas -/

/-- The characters the query parser treats specially. -/
theorem unreserved_safe {c : Char} (h : isUnreservedChar c = true) :
    c ≠ '&' ∧ c ≠ '=' ∧ c ≠ '%' ∧ c ≠ '+' := by
  refine ⟨?_, ?_, ?_, ?_⟩ <;> rintro rfl <;> exact absurd h (by decide)

theorem digit_safe {c : Char} (h : c.isDigit = true) :
    c ≠ '&' ∧ c ≠ '=' ∧ c ≠ '%' ∧ c ≠ '+' := by
  refine ⟨?_, ?_, ?_, ?_⟩ <;> rintro rfl <;> exact absurd h (by decide)

theorem hexDigitU_safe : ∀ n < 16,
    hexDigitU n ≠ '&' ∧ hexDigitU n ≠ '=' ∧ hexDigitU n ≠ '%' ∧
      hexDigitU n ≠ '+' := by decide

theorem hexVal_hexDigitU : ∀ n < 16, hexVal (hexDigitU n) = n := by decide

/-- Every digit produced by `natDigitsRev` is below 10. -/
theorem natDigitsRev_lt (n : ℕ) : ∀ d ∈ natDigitsRev n, d < 10 := by
  induction n using Nat.strong_induction_on with
  | _ n ih =>
    match n with
    | 0 => simp [natDigitsRev]
    | m + 1 =>
      intro d hd
      rw [natDigitsRev] at hd
      rcases List.mem_cons.mp hd with h | h
      · subst h; exact Nat.mod_lt _ (by norm_num)
      · exact ih ((m + 1) / 10) (Nat.div_lt_self (Nat.succ_pos m) (by norm_num)) d h

theorem digitChar_isDigit : ∀ d < 10, (Nat.digitChar d).isDigit = true := by decide

/-- `natDigitsL` produces only decimal digit characters. -/
theorem natDigitsL_class (n : ℕ) : ∀ c ∈ natDigitsL n, c.isDigit = true := by
  intro c hc
  unfold natDigitsL at hc
  split_ifs at hc
  · simp at hc
    subst hc
    decide
  · obtain ⟨d, hd, hdc⟩ := List.mem_map.mp hc
    have hd10 : d < 10 := natDigitsRev_lt n d (List.mem_reverse.mp hd)
    rw [← hdc]
    exact digitChar_isDigit d hd10

/-- `intToStrL` produces only digits and a leading minus sign. -/
theorem intToStrL_class (i : ℤ) :
    ∀ c ∈ intToStrL i, c.isDigit = true ∨ c = '-' := by
  intro c hc
  unfold intToStrL at hc
  rcases List.mem_append.mp hc with h | h
  · right
    split_ifs at h <;> simp_all
  · left
    exact natDigitsL_class _ c h

/-- `padSixL` of a digit block is all digits. -/
theorem padSixL_class (l : List Char) (hl : ∀ c ∈ l, c.isDigit = true) :
    ∀ c ∈ padSixL l, c.isDigit = true := by
  intro c hc
  unfold padSixL at hc
  rcases List.mem_append.mp hc with h | h
  · have := List.eq_of_mem_replicate h
    subst this
    decide
  · exact hl c h

/-- `fmtFL` produces only digits, minus, dot. -/
theorem fmtFL_class (q : ℚ) :
    ∀ c ∈ fmtFL q, c.isDigit = true ∨ c = '-' ∨ c = '.' := by
  intro c hc
  unfold fmtFL at hc
  simp only at hc
  rcases List.mem_append.mp hc with h | h
  · rcases List.mem_append.mp h with h1 | h1
    · right; left
      split_ifs at h1
      · simpa using h1
      · simp at h1
    · left
      exact natDigitsL_class _ c h1
  · rcases List.mem_cons.mp h with h3 | h3
    · right; right; exact h3
    · left
      exact padSixL_class _ (natDigitsL_class _) c h3

/-- Characters that are digits, minus, dot or comma are inert for both the
splitter and the unescaper. -/
theorem numish_safe {c : Char}
    (h : c.isDigit = true ∨ c = '-' ∨ c = '.' ∨ c = ',') :
    c ≠ '&' ∧ c ≠ '=' ∧ c ≠ '%' ∧ c ≠ '+' := by
  rcases h with h | h | h | h
  · exact digit_safe h
  all_goals subst h
  all_goals exact ⟨by decide, by decide, by decide, by decide⟩

/-! #### Escaping round-trip -/

/-- Escaped byte sequences never contain the query metacharacters. -/
theorem escapeChar_safe {c : Char} (hc : c.toNat < 256) :
    ∀ e ∈ escapeChar c, e ≠ '&' ∧ e ≠ '=' := by
  intro e he
  unfold escapeChar at he
  split_ifs at he with h1 h2
  · simp at he
    subst he
    obtain ⟨a, b, _, _⟩ := unreserved_safe h1
    exact ⟨a, b⟩
  · simp at he
    subst he
    exact ⟨by decide, by decide⟩
  · have hdiv : c.toNat / 16 < 16 := by omega
    have hmod : c.toNat % 16 < 16 := Nat.mod_lt _ (by norm_num)
    rcases List.mem_cons.mp he with h | h
    · subst h
      exact ⟨by decide, by decide⟩
    rcases List.mem_cons.mp h with h2 | h2
    · subst h2
      obtain ⟨a, b, _, _⟩ := hexDigitU_safe _ hdiv
      exact ⟨a, b⟩
    · simp at h2
      subst h2
      obtain ⟨a, b, _, _⟩ := hexDigitU_safe _ hmod
      exact ⟨a, b⟩

theorem queryEscapeL_safe (l : List Char) (hl : ∀ c ∈ l, c.toNat < 256) :
    ∀ e ∈ queryEscapeL l, e ≠ '&' ∧ e ≠ '=' := by
  intro e he
  unfold queryEscapeL at he
  obtain ⟨x, hx, hex⟩ := List.mem_flatten.mp he
  obtain ⟨c, hc, rfl⟩ := List.mem_map.mp hx
  exact escapeChar_safe (hl c hc) e hex

/-- Unescaping inverts escaping on byte sequences. -/
theorem unescape_queryEscapeL (l : List Char) (hl : ∀ c ∈ l, c.toNat < 256) :
    unescapeQuery (queryEscapeL l) = l := by
  induction l with
  | nil => rfl
  | cons c rest ih =>
    have hc : c.toNat < 256 := hl c (List.mem_cons_self c rest)
    have hrest : ∀ x ∈ rest, x.toNat < 256 :=
      fun x hx => hl x (List.mem_cons_of_mem c hx)
    have hq : queryEscapeL (c :: rest) = escapeChar c ++ queryEscapeL rest := by
      simp [queryEscapeL]
    rw [hq]
    unfold escapeChar
    split_ifs with h1 h2
    · obtain ⟨_, _, hp, hpl⟩ := unreserved_safe h1
      rw [List.singleton_append, unescapeQuery_other c _ hp hpl, ih hrest]
    · rw [List.singleton_append, unescapeQuery_plus, ih hrest, h2]
    · rw [List.cons_append, List.cons_append, List.cons_append, List.nil_append,
        unescapeQuery_percent,
        hexVal_hexDigitU _ (by omega),
        hexVal_hexDigitU _ (Nat.mod_lt _ (by norm_num))]
      have hsum : c.toNat / 16 * 16 + c.toNat % 16 = c.toNat := by omega
      rw [hsum, Char.ofNat_toNat, ih hrest]

/-- Unescaping is the identity on sequences without `%` or `+`. -/
theorem unescape_of_inert (l : List Char) (hl : ∀ c ∈ l, c ≠ '%' ∧ c ≠ '+') :
    unescapeQuery l = l := by
  induction l with
  | nil => rfl
  | cons c rest ih =>
    obtain ⟨h1, h2⟩ := hl c (List.mem_cons_self c rest)
    rw [unescapeQuery_other c rest h1 h2,
      ih (fun x hx => hl x (List.mem_cons_of_mem c hx))]

/-! #### Query-string parsing (the spec-side reading of the wire format) -/

/-- Split a query string at `&`. -/
def splitAmp : List Char → List (List Char)
  | [] => [[]]
  | c :: rest =>
    if c = '&' then [] :: splitAmp rest
    else
      match splitAmp rest with
      | [] => [[c]]
      | g :: gs => (c :: g) :: gs

theorem splitAmp_ne_nil (l : List Char) : splitAmp l ≠ [] := by
  induction l with
  | nil => simp [splitAmp]
  | cons c rest ih =>
    rw [splitAmp]
    split_ifs
    · simp
    · rcases hsp : splitAmp rest with _ | ⟨g, gs⟩ <;> simp

theorem splitAmp_no_amp (l : List Char) (hl : '&' ∉ l) : splitAmp l = [l] := by
  induction l with
  | nil => rfl
  | cons c rest ih =>
    have hc : c ≠ '&' := fun h => hl (h ▸ List.mem_cons_self c rest)
    have hrest : '&' ∉ rest := fun h => hl (List.mem_cons_of_mem c h)
    rw [splitAmp, if_neg hc, ih hrest]

theorem splitAmp_append (a b : List Char) (ha : '&' ∉ a) :
    splitAmp (a ++ '&' :: b) = a :: splitAmp b := by
  induction a with
  | nil => simp [splitAmp]
  | cons c a2 ih =>
    have hc : c ≠ '&' := fun h => ha (h ▸ List.mem_cons_self c a2)
    have ha2 : '&' ∉ a2 := fun h => ha (List.mem_cons_of_mem c h)
    rw [List.cons_append, splitAmp, if_neg hc, ih ha2]

/-- Split one `key=value` piece at the first `=` and unescape the value. -/
def parsePairL (l : List Char) : String × String :=
  (String.mk (l.takeWhile (fun c => !(c == '='))),
   String.mk (unescapeQuery ((l.dropWhile (fun c => !(c == '='))).drop 1)))

theorem takeWhile_neq_append (k v : List Char) (hk : '=' ∉ k) :
    (k ++ '=' :: v).takeWhile (fun c => !(c == '=')) = k := by
  induction k with
  | nil => simp [List.takeWhile_cons]
  | cons c k2 ih =>
    have hc : c ≠ '=' := fun h => hk (h ▸ List.mem_cons_self c k2)
    rw [List.cons_append, List.takeWhile_cons, if_pos (by simp [hc]),
      ih (fun h => hk (List.mem_cons_of_mem c h))]

theorem dropWhile_neq_append (k v : List Char) (hk : '=' ∉ k) :
    (k ++ '=' :: v).dropWhile (fun c => !(c == '=')) = '=' :: v := by
  induction k with
  | nil => simp [List.dropWhile_cons]
  | cons c k2 ih =>
    have hc : c ≠ '=' := fun h => hk (h ▸ List.mem_cons_self c k2)
    rw [List.cons_append, List.dropWhile_cons, if_pos (by simp [hc]),
      ih (fun h => hk (List.mem_cons_of_mem c h))]

theorem parsePairL_eq (k v : List Char) (hk : '=' ∉ k) :
    parsePairL (k ++ '=' :: v) = (String.mk k, String.mk (unescapeQuery v)) := by
  unfold parsePairL
  rw [takeWhile_neq_append k v hk, dropWhile_neq_append k v hk]
  simp

/-- Parse a full query string into key/value pairs. -/
def parseQueryL (l : List Char) : List (String × String) :=
  (splitAmp l).map parsePairL

/-- Parse a query `String`. -/
def parseQuery (s : String) : List (String × String) := parseQueryL s.toList

/-- Join chunks with `&` (for relating the built string to its parse). -/
def ampJoinL : List (List Char) → List Char
  | [] => []
  | [c] => c
  | c :: c2 :: rest => c ++ '&' :: ampJoinL (c2 :: rest)

theorem splitAmp_ampJoinL (chunks : List (List Char)) (hne : chunks ≠ [])
    (h : ∀ c ∈ chunks, '&' ∉ c) :
    splitAmp (ampJoinL chunks) = chunks := by
  induction chunks with
  | nil => exact absurd rfl hne
  | cons c rest ih =>
    rcases rest with _ | ⟨c2, rest2⟩
    · exact splitAmp_no_amp c (h c (List.mem_cons_self c []))
    · show splitAmp (c ++ '&' :: ampJoinL (c2 :: rest2)) = c :: c2 :: rest2
      rw [splitAmp_append _ _ (h c (List.mem_cons_self c _)),
        ih (by simp) (fun x hx => h x (List.mem_cons_of_mem c hx))]

theorem parseQueryL_ampJoinL (chunks : List (List Char)) (hne : chunks ≠ [])
    (h : ∀ c ∈ chunks, '&' ∉ c) :
    parseQueryL (ampJoinL chunks) = chunks.map parsePairL := by
  unfold parseQueryL
  rw [splitAmp_ampJoinL chunks hne h]

/-! #### The request builder (`fetchMap`) -/

/-- The standard base64 alphabet. -/
def b64Alphabet : List Char :=
  ("ABCDEFGHIJKLMNOPQRSTUVWXYZabcdefghijklmnopqrstuvwxyz0123456789+/").toList

/-- Base64 digit for a 6-bit group. -/
def b64Char (n : ℕ) : Char := b64Alphabet.getD n '='

/-- Standard base64 with padding over a byte sequence (the encoding
`SetBasicAuth` applies to `user:pass`). -/
def base64L : List ℕ → List Char
  | [] => []
  | [a] => [b64Char (a / 4), b64Char (a % 4 * 16), '=', '=']
  | [a, b] => [b64Char (a / 4), b64Char (a % 4 * 16 + b / 16), b64Char (b % 16 * 4), '=']
  | a :: b :: c :: rest =>
    [b64Char (a / 4), b64Char (a % 4 * 16 + b / 16),
      b64Char (b % 16 * 4 + c / 64), b64Char (c % 64)] ++ base64L rest

/-- The bytes of an (ASCII) string. -/
def strBytes (s : String) : List ℕ := s.toList.map Char.toNat

/-- The outbound HTTP request: method, URL, `Authorization` header value. -/
structure HTTPReq where
  method : String
  url : String
  authHeader : String
deriving DecidableEq

/-- The style sent with a fetch: `m.styles[m.currentStyle]` when the list
is non-empty and the index is below its length, else the empty string
(default style).  The component keeps the index nonnegative. -/
def styleOf (stylesL : List String) (cs : ℤ) : String :=
  if 0 < stylesL.length ∧ cs < (stylesL.length : ℤ) then stylesL.getD cs.toNat ""
  else ""

/-- The query part of the `Sprintf` in `fetchMap` (everything after
`<baseURL>/wms?`), over the escaped layers/style parameters, `%d` pixel
sizes and `%f` bbox coordinates. -/
def wmsQueryL (layersParam styleParam : List Char) (w h : ℤ)
    (b0 b1 b2 b3 : ℚ) : List Char :=
  ("SERVICE=WMS&VERSION=1.1.1&REQUEST=GetMap&LAYERS=").toList ++
    queryEscapeL layersParam ++
  ("&STYLES=").toList ++ queryEscapeL styleParam ++
  ("&FORMAT=").toList ++ queryEscapeL (("image/png").toList) ++
  ("&TRANSPARENT=true&SRS=EPSG:4326&WIDTH=").toList ++ intToStrL w ++
  ("&HEIGHT=").toList ++ intToStrL h ++
  ("&BBOX=").toList ++ fmtFL b0 ++ [','] ++ fmtFL b1 ++ [','] ++
    fmtFL b2 ++ [','] ++ fmtFL b3

/-- Embedding of `fetchMap`'s request construction: GET on the WMS URL with
basic auth (`Authorization: Basic base64(user:pass)`). -/
def fetchMapReq (base user pass ws layer : String) (stylesL : List String)
    (cs : ℤ) (w h : ℤ) (b0 b1 b2 b3 : ℚ) : HTTPReq :=
  { method := "GET",
    url := base ++ "/wms?" ++ String.mk (wmsQueryL ((ws ++ ":" ++ layer).toList)
      ((styleOf stylesL cs).toList) w h b0 b1 b2 b3),
    authHeader := "Basic " ++ String.mk (base64L (strBytes (user ++ ":" ++ pass))) }

/-- The `BBOX` parameter value `<minX>,<minY>,<maxX>,<maxY>`. -/
def bboxParam (b0 b1 b2 b3 : ℚ) : String :=
  String.mk (fmtFL b0 ++ [','] ++ fmtFL b1 ++ [','] ++ fmtFL b2 ++ [','] ++ fmtFL b3)

/-! #### Safety of the formatted values -/

theorem fmtFL_safe (q : ℚ) :
    ∀ c ∈ fmtFL q, c ≠ '&' ∧ c ≠ '=' ∧ c ≠ '%' ∧ c ≠ '+' := by
  intro c hc
  refine numish_safe ?_
  rcases fmtFL_class q c hc with h | h | h
  · exact Or.inl h
  · exact Or.inr (Or.inl h)
  · exact Or.inr (Or.inr (Or.inl h))

theorem intToStrL_safe (i : ℤ) :
    ∀ c ∈ intToStrL i, c ≠ '&' ∧ c ≠ '=' ∧ c ≠ '%' ∧ c ≠ '+' := by
  intro c hc
  refine numish_safe ?_
  rcases intToStrL_class i c hc with h | h
  · exact Or.inl h
  · exact Or.inr (Or.inl h)

theorem bboxTail_safe (b0 b1 b2 b3 : ℚ) :
    ∀ c ∈ fmtFL b0 ++ [','] ++ fmtFL b1 ++ [','] ++ fmtFL b2 ++ [','] ++ fmtFL b3,
      c ≠ '&' ∧ c ≠ '=' ∧ c ≠ '%' ∧ c ≠ '+' := by
  intro c hc
  simp only [List.mem_append, List.mem_singleton] at hc
  rcases hc with ((((((h | h) | h) | h) | h) | h) | h)
  · exact fmtFL_safe b0 c h
  · subst h; exact ⟨by decide, by decide, by decide, by decide⟩
  · exact fmtFL_safe b1 c h
  · subst h; exact ⟨by decide, by decide, by decide, by decide⟩
  · exact fmtFL_safe b2 c h
  · subst h; exact ⟨by decide, by decide, by decide, by decide⟩
  · exact fmtFL_safe b3 c h

theorem bboxTail_inert (b0 b1 b2 b3 : ℚ) :
    unescapeQuery (fmtFL b0 ++ [','] ++ fmtFL b1 ++ [','] ++ fmtFL b2 ++ [','] ++
      fmtFL b3) =
      fmtFL b0 ++ [','] ++ fmtFL b1 ++ [','] ++ fmtFL b2 ++ [','] ++ fmtFL b3 := by
  refine unescape_of_inert _ (fun c hc => ?_)
  obtain ⟨_, _, h3, h4⟩ := bboxTail_safe b0 b1 b2 b3 c hc
  exact ⟨h3, h4⟩

/-! #### The query string parses to exactly the claimed parameters -/

/-- The built query string is the `&`-join of the eleven `key=value`
chunks. -/
theorem wmsQueryL_eq_ampJoin (L S : List Char) (w h : ℤ) (b0 b1 b2 b3 : ℚ) :
    wmsQueryL L S w h b0 b1 b2 b3 =
      ampJoinL
        [("SERVICE=WMS").toList,
         ("VERSION=1.1.1").toList,
         ("REQUEST=GetMap").toList,
         ("LAYERS=").toList ++ queryEscapeL L,
         ("STYLES=").toList ++ queryEscapeL S,
         ("FORMAT=").toList ++ queryEscapeL (("image/png").toList),
         ("TRANSPARENT=true").toList,
         ("SRS=EPSG:4326").toList,
         ("WIDTH=").toList ++ intToStrL w,
         ("HEIGHT=").toList ++ intToStrL h,
         ("BBOX=").toList ++ (fmtFL b0 ++ [','] ++ fmtFL b1 ++ [','] ++
           fmtFL b2 ++ [','] ++ fmtFL b3)] := by
  have e1 : ("SERVICE=WMS&VERSION=1.1.1&REQUEST=GetMap&LAYERS=").toList =
      ("SERVICE=WMS").toList ++ '&' :: (("VERSION=1.1.1").toList ++
        '&' :: (("REQUEST=GetMap").toList ++ '&' :: ("LAYERS=").toList)) := by
    decide
  have e2 : ("&STYLES=").toList = '&' :: ("STYLES=").toList := by decide
  have e3 : ("&FORMAT=").toList = '&' :: ("FORMAT=").toList := by decide
  have e4 : ("&TRANSPARENT=true&SRS=EPSG:4326&WIDTH=").toList =
      '&' :: (("TRANSPARENT=true").toList ++
        '&' :: (("SRS=EPSG:4326").toList ++ '&' :: ("WIDTH=").toList)) := by
    decide
  have e5 : ("&HEIGHT=").toList = '&' :: ("HEIGHT=").toList := by decide
  have e6 : ("&BBOX=").toList = '&' :: ("BBOX=").toList := by decide
  unfold wmsQueryL
  rw [e1, e2, e3, e4, e5, e6]
  simp only [ampJoinL]
  simp [List.append_assoc]

/-- `String.mk` of a string's characters is the string. -/
theorem stringMk_toList (s : String) : String.mk s.toList = s := rfl

/-- Parsing the built query yields exactly the eleven WMS parameters, with
the layers and style values restored by unescaping. -/
theorem parse_wmsQueryL (L S : List Char) (w h : ℤ) (b0 b1 b2 b3 : ℚ)
    (hL : ∀ c ∈ L, c.toNat < 256) (hS : ∀ c ∈ S, c.toNat < 256) :
    parseQueryL (wmsQueryL L S w h b0 b1 b2 b3) =
      [("SERVICE", "WMS"), ("VERSION", "1.1.1"), ("REQUEST", "GetMap"),
       ("LAYERS", String.mk L), ("STYLES", String.mk S),
       ("FORMAT", "image/png"), ("TRANSPARENT", "true"), ("SRS", "EPSG:4326"),
       ("WIDTH", intToStr w), ("HEIGHT", intToStr h),
       ("BBOX", bboxParam b0 b1 b2 b3)] := by
  have hamp : ∀ x ∈
      [("SERVICE=WMS").toList,
       ("VERSION=1.1.1").toList,
       ("REQUEST=GetMap").toList,
       ("LAYERS=").toList ++ queryEscapeL L,
       ("STYLES=").toList ++ queryEscapeL S,
       ("FORMAT=").toList ++ queryEscapeL (("image/png").toList),
       ("TRANSPARENT=true").toList,
       ("SRS=EPSG:4326").toList,
       ("WIDTH=").toList ++ intToStrL w,
       ("HEIGHT=").toList ++ intToStrL h,
       ("BBOX=").toList ++ (fmtFL b0 ++ [','] ++ fmtFL b1 ++ [','] ++
         fmtFL b2 ++ [','] ++ fmtFL b3)], '&' ∉ x := by
    intro x hx
    simp only [List.mem_cons, List.not_mem_nil, or_false] at hx
    rcases hx with rfl | rfl | rfl | rfl | rfl | rfl | rfl | rfl | rfl | rfl | rfl
    · decide
    · decide
    · decide
    · intro hmem
      rcases List.mem_append.mp hmem with hm | hm
      · exact absurd hm (by decide)
      · exact absurd rfl (queryEscapeL_safe L hL '&' hm).1
    · intro hmem
      rcases List.mem_append.mp hmem with hm | hm
      · exact absurd hm (by decide)
      · exact absurd rfl (queryEscapeL_safe S hS '&' hm).1
    · decide
    · decide
    · decide
    · intro hmem
      rcases List.mem_append.mp hmem with hm | hm
      · exact absurd hm (by decide)
      · exact absurd rfl (intToStrL_safe w '&' hm).1
    · intro hmem
      rcases List.mem_append.mp hmem with hm | hm
      · exact absurd hm (by decide)
      · exact absurd rfl (intToStrL_safe h '&' hm).1
    · intro hmem
      rcases List.mem_append.mp hmem with hm | hm
      · exact absurd hm (by decide)
      · exact absurd rfl (bboxTail_safe b0 b1 b2 b3 '&' hm).1
  have hp1 : parsePairL (("SERVICE=WMS").toList) = ("SERVICE", "WMS") := by decide
  have hp2 : parsePairL (("VERSION=1.1.1").toList) = ("VERSION", "1.1.1") := by decide
  have hp3 : parsePairL (("REQUEST=GetMap").toList) = ("REQUEST", "GetMap") := by
    decide
  have hp4 : parsePairL (("LAYERS=").toList ++ queryEscapeL L) =
      ("LAYERS", String.mk L) := by
    rw [show ("LAYERS=").toList = ("LAYERS").toList ++ ['='] by decide,
      List.append_assoc, List.singleton_append,
      parsePairL_eq _ _ (by decide), unescape_queryEscapeL L hL]
    rfl
  have hp5 : parsePairL (("STYLES=").toList ++ queryEscapeL S) =
      ("STYLES", String.mk S) := by
    rw [show ("STYLES=").toList = ("STYLES").toList ++ ['='] by decide,
      List.append_assoc, List.singleton_append,
      parsePairL_eq _ _ (by decide), unescape_queryEscapeL S hS]
    rfl
  have hp6 : parsePairL (("FORMAT=").toList ++ queryEscapeL (("image/png").toList)) =
      ("FORMAT", "image/png") := by decide
  have hp7 : parsePairL (("TRANSPARENT=true").toList) = ("TRANSPARENT", "true") := by
    decide
  have hp8 : parsePairL (("SRS=EPSG:4326").toList) = ("SRS", "EPSG:4326") := by decide
  have hp9 : parsePairL (("WIDTH=").toList ++ intToStrL w) = ("WIDTH", intToStr w) := by
    rw [show ("WIDTH=").toList = ("WIDTH").toList ++ ['='] by decide,
      List.append_assoc, List.singleton_append, parsePairL_eq _ _ (by decide),
      unescape_of_inert _ (fun c hc =>
        ⟨(intToStrL_safe w c hc).2.2.1, (intToStrL_safe w c hc).2.2.2⟩)]
    rfl
  have hp10 : parsePairL (("HEIGHT=").toList ++ intToStrL h) =
      ("HEIGHT", intToStr h) := by
    rw [show ("HEIGHT=").toList = ("HEIGHT").toList ++ ['='] by decide,
      List.append_assoc, List.singleton_append, parsePairL_eq _ _ (by decide),
      unescape_of_inert _ (fun c hc =>
        ⟨(intToStrL_safe h c hc).2.2.1, (intToStrL_safe h c hc).2.2.2⟩)]
    rfl
  have hp11 : parsePairL (("BBOX=").toList ++ (fmtFL b0 ++ [','] ++ fmtFL b1 ++
      [','] ++ fmtFL b2 ++ [','] ++ fmtFL b3)) =
      ("BBOX", bboxParam b0 b1 b2 b3) := by
    rw [show ("BBOX=").toList = ("BBOX").toList ++ ['='] by decide,
      List.append_assoc, List.singleton_append, parsePairL_eq _ _ (by decide),
      bboxTail_inert b0 b1 b2 b3]
    rfl
  rw [wmsQueryL_eq_ampJoin, parseQueryL_ampJoinL _ (by simp) hamp]
  simp only [List.map_cons, List.map_nil]
  rw [hp1, hp2, hp3, hp4, hp5, hp6, hp7, hp8, hp9, hp10, hp11]

/-- C7: the fetch request is a GET on `<baseURL>/wms` whose query parses to
exactly the parameters SERVICE, VERSION, REQUEST, LAYERS (`workspace:layer`),
STYLES (selected style or empty), FORMAT, TRANSPARENT, SRS, WIDTH, HEIGHT,
BBOX (`minX,minY,maxX,maxY`), with a basic-auth `Authorization` header for
the configured user and password. -/
theorem wms_request_contract (base user pass ws layer : String)
    (stylesL : List String) (cs : ℤ) (w h : ℤ) (b0 b1 b2 b3 : ℚ)
    (hws : ∀ c ∈ (ws ++ ":" ++ layer).toList, c.toNat < 256)
    (hstyle : ∀ c ∈ (styleOf stylesL cs).toList, c.toNat < 256) :
    (fetchMapReq base user pass ws layer stylesL cs w h b0 b1 b2 b3).method =
      "GET" ∧
    (fetchMapReq base user pass ws layer stylesL cs w h b0 b1 b2 b3).url =
      base ++ "/wms?" ++ String.mk (wmsQueryL ((ws ++ ":" ++ layer).toList)
        ((styleOf stylesL cs).toList) w h b0 b1 b2 b3) ∧
    parseQuery (String.mk (wmsQueryL ((ws ++ ":" ++ layer).toList)
        ((styleOf stylesL cs).toList) w h b0 b1 b2 b3)) =
      [("SERVICE", "WMS"), ("VERSION", "1.1.1"), ("REQUEST", "GetMap"),
       ("LAYERS", ws ++ ":" ++ layer), ("STYLES", styleOf stylesL cs),
       ("FORMAT", "image/png"), ("TRANSPARENT", "true"), ("SRS", "EPSG:4326"),
       ("WIDTH", intToStr w), ("HEIGHT", intToStr h),
       ("BBOX", bboxParam b0 b1 b2 b3)] ∧
    (fetchMapReq base user pass ws layer stylesL cs w h b0 b1 b2 b3).authHeader =
      "Basic " ++ String.mk (base64L (strBytes (user ++ ":" ++ pass))) := by
  refine ⟨rfl, rfl, ?_, rfl⟩
  show parseQueryL (wmsQueryL ((ws ++ ":" ++ layer).toList)
    ((styleOf stylesL cs).toList) w h b0 b1 b2 b3) = _
  rw [parse_wmsQueryL _ _ w h b0 b1 b2 b3 hws hstyle,
    stringMk_toList, stringMk_toList]

/-- Witness for `wms_request_contract`: the `demo:roads` layer at the world
extent with default (empty) style list, 800×600 pixels. -/
theorem wms_request_contract_witness :
    (fetchMapReq ("http://localhost:8080/geoserver") ("admin") ("geoserver")
      ("demo") ("roads") [] 0 800 600 (-180) (-90) 180 90).method = "GET" ∧
    (fetchMapReq ("http://localhost:8080/geoserver") ("admin") ("geoserver")
      ("demo") ("roads") [] 0 800 600 (-180) (-90) 180 90).url =
      ("http://localhost:8080/geoserver") ++ "/wms?" ++
        String.mk (wmsQueryL ((("demo" : String) ++ ":" ++ "roads").toList)
          ((styleOf [] 0).toList) 800 600 (-180) (-90) 180 90) ∧
    parseQuery (String.mk (wmsQueryL ((("demo" : String) ++ ":" ++ "roads").toList)
        ((styleOf [] 0).toList) 800 600 (-180) (-90) 180 90)) =
      [("SERVICE", "WMS"), ("VERSION", "1.1.1"), ("REQUEST", "GetMap"),
       ("LAYERS", ("demo" : String) ++ ":" ++ "roads"), ("STYLES", styleOf [] 0),
       ("FORMAT", "image/png"), ("TRANSPARENT", "true"), ("SRS", "EPSG:4326"),
       ("WIDTH", intToStr 800), ("HEIGHT", intToStr 600),
       ("BBOX", bboxParam (-180) (-90) 180 90)] ∧
    (fetchMapReq ("http://localhost:8080/geoserver") ("admin") ("geoserver")
      ("demo") ("roads") [] 0 800 600 (-180) (-90) 180 90).authHeader =
      "Basic " ++ String.mk (base64L (strBytes (("admin" : String) ++ ":" ++
        "geoserver"))) :=
  wms_request_contract ("http://localhost:8080/geoserver") ("admin") ("geoserver")
    ("demo") ("roads") [] 0 800 600 (-180) (-90) 180 90 (by decide) (by decide)

end KGC
